import Mathlib

/-!
Shallow embedding of `easy-2d-renderer` (src/src/main.rs), a minimal wgpu
program that opens a window and renders one fixed triangle per frame.

Modelling conventions:
* wgpu / winit handles (`Surface`, `Device`, `Queue`) carry no data the
  program reads, so they are embedded as opaque identifier records.
* Machine integers (`u32` sizes) are `Nat`; the program does no arithmetic
  on them, only comparison and copying, so no wrap-around modelling needed.
* `f32` literals are embedded by their IEEE-754 binary32 bit patterns
  (what `bytemuck::cast_slice` exposes), together with a decoder
  `f32Val?` back to exact rationals.
* Effectful GPU calls are embedded as explicit event traces: `resize`
  returns the list of `surface.configure` calls it performs, `render`
  returns the ordered list of graphics commands it issues.
* `unwrap` on a fallible external call is embedded as `Option` /
  a `panicked` result constructor.
-/

namespace Renderer

/-- Texture formats (the subset of `wgpu::TextureFormat` relevant to this
program: pairs of linear/sRGB surface formats). -/
inductive TextureFormat where
  | Rgba8Unorm
  | Rgba8UnormSrgb
  | Bgra8Unorm
  | Bgra8UnormSrgb
  | Rgba16Float
  | Rgb10a2Unorm
  deriving DecidableEq, Repr

/-- `wgpu::TextureFormat::is_srgb`: true exactly for the `-Srgb` variants. -/
def TextureFormat.is_srgb : TextureFormat → Bool
  | .Rgba8UnormSrgb => true
  | .Bgra8UnormSrgb => true
  | _ => false

/-- `wgpu::PresentMode` (subset). -/
inductive PresentMode where
  | Fifo
  | Immediate
  | Mailbox
  deriving DecidableEq, Repr

/-- `wgpu::CompositeAlphaMode` (subset). -/
inductive CompositeAlphaMode where
  | Auto
  | Opaque
  | PreMultiplied
  deriving DecidableEq, Repr

/-- `wgpu::TextureUsages` bit flags (the ones named in the program). -/
def TextureUsages.RENDER_ATTACHMENT : Nat := 16

/-- `wgpu::BufferUsages` bit flags (the ones named in the program). -/
def BufferUsages.VERTEX : Nat := 32

/-- `winit::dpi::PhysicalSize<u32>`. -/
structure PhysicalSize where
  width : Nat
  height : Nat
  deriving DecidableEq, Repr

/-- `wgpu::SurfaceConfiguration` (the fields the program sets). -/
structure SurfaceConfiguration where
  usage : Nat
  format : TextureFormat
  width : Nat
  height : Nat
  present_mode : PresentMode
  alpha_mode : CompositeAlphaMode
  view_formats : List TextureFormat
  deriving DecidableEq, Repr

/-- Opaque surface handle. -/
structure Surface where
  id : Nat
  deriving DecidableEq, Repr

/-- Opaque device handle. -/
structure Device where
  id : Nat
  deriving DecidableEq, Repr

/-- Opaque queue handle. -/
structure Queue where
  id : Nat
  deriving DecidableEq, Repr

/-- `winit::window::Window` (the one datum the program reads from it). -/
structure Window where
  inner_size : PhysicalSize
  deriving DecidableEq, Repr

/-- `wgpu::SurfaceCapabilities` (the field the program reads). -/
structure SurfaceCapabilities where
  formats : List TextureFormat
  deriving DecidableEq, Repr

/-- A recorded `surface.configure(&device, &config)` call. -/
structure ConfigureCall where
  device : Device
  config : SurfaceConfiguration
  deriving DecidableEq, Repr

/-- The application state struct `State` from main.rs. -/
structure State where
  surface : Surface
  config : SurfaceConfiguration
  device : Device
  queue : Queue
  deriving DecidableEq, Repr

/-- Surface format selection from `State::new` (main.rs lines 84-89):
`surface_caps.formats.iter().copied().find(|f| f.is_srgb()).unwrap_or(surface_caps.formats[0])`.
Indexing `formats[0]` panics on an empty list (embedded as `none`);
the index is evaluated eagerly by `unwrap_or`, so an empty list panics
before the `find` result matters. -/
def surfaceFormatOf (formats : List TextureFormat) : Option TextureFormat :=
  match formats with
  | [] => none
  | f0 :: _ => some ((formats.find? TextureFormat.is_srgb).getD f0)

/-- `State::new` (main.rs lines 52-110), with the external negotiation
results (surface, device, queue, surface capabilities) as parameters.
Returns the constructed state together with the `surface.configure`
calls performed, or `none` where the original unwraps would panic. -/
def State.new (window : Window) (surface : Surface) (device : Device)
    (queue : Queue) (surface_caps : SurfaceCapabilities) :
    Option (State × List ConfigureCall) :=
  match surfaceFormatOf surface_caps.formats with
  | none => none
  | some surface_format =>
    let size := window.inner_size
    let config : SurfaceConfiguration :=
      { usage := TextureUsages.RENDER_ATTACHMENT
        format := surface_format
        width := size.width
        height := size.height
        present_mode := .Fifo
        alpha_mode := .Auto
        view_formats := [] }
    some ({ surface := surface, config := config, device := device,
            queue := queue },
          [{ device := device, config := config }])

/-- `State::resize` (main.rs lines 149-155). Returns the updated state and
the `surface.configure` calls performed during the call. -/
def State.resize (s : State) (size : PhysicalSize) :
    State × List ConfigureCall :=
  if size.width > 0 ∧ size.height > 0 then
    let config := { s.config with width := size.width, height := size.height }
    ({ s with config := config }, [{ device := s.device, config := config }])
  else
    (s, [])

/-- The states reachable from `State::new` on a given window by any
sequence of resize events, paired with the cumulative list of
`surface.configure` calls applied to the surface so far. -/
inductive Reachable (w : Window) : State → List ConfigureCall → Prop where
  | init (surface : Surface) (device : Device) (queue : Queue)
      (caps : SurfaceCapabilities) (st : State) (calls : List ConfigureCall)
      (h : State.new w surface device queue caps = some (st, calls)) :
      Reachable w st calls
  | step (st : State) (calls : List ConfigureCall) (size : PhysicalSize)
      (st' : State) (newCalls : List ConfigureCall)
      (hr : Reachable w st calls)
      (h : State.resize st size = (st', newCalls)) :
      Reachable w st' (calls ++ newCalls)

/-- An `f32` value, represented by its IEEE-754 binary32 bit pattern
(little-endian bytes of this word are what `bytemuck` exposes). -/
abbrev F32 := Nat

/-- Bit pattern of the literal `0.0f32`. -/
def f32_lit_zero : F32 := 0x00000000

/-- Bit pattern of the literal `0.5f32`. -/
def f32_lit_half : F32 := 0x3F000000

/-- Bit pattern of the literal `-0.5f32`. -/
def f32_lit_neg_half : F32 := 0xBF000000

/-- Decode an IEEE-754 binary32 bit pattern to its exact rational value;
`none` for the non-finite encodings (exponent field all ones). -/
def f32Val? (bits : F32) : Option ℚ :=
  let sign : ℚ := if bits / 2 ^ 31 % 2 = 1 then -1 else 1
  let e : Nat := bits / 2 ^ 23 % 2 ^ 8
  let m : Nat := bits % 2 ^ 23
  if e = 255 then none
  else if e = 0 then some (sign * (m : ℚ) / 2 ^ 149)
  else some (sign * ((2 ^ 23 + m : ℚ) * 2 ^ e) / 2 ^ 150)

/-- The little-endian bytes of a 32-bit word, as laid out in memory. -/
def leBytes4 (bits : Nat) : List Nat :=
  [bits % 256, bits / 256 % 256, bits / 256 ^ 2 % 256, bits / 256 ^ 3 % 256]

/-- `TriangleVertex` from main.rs: `#[repr(C)] { position: [f32; 2] }`. -/
structure TriangleVertex where
  position : F32 × F32
  deriving DecidableEq, Repr

/-- The `repr(C)` byte layout of one vertex: the two `f32` fields in
order, each little-endian (no padding: two 4-byte fields). -/
def TriangleVertex.bytes (v : TriangleVertex) : List Nat :=
  leBytes4 v.position.1 ++ leBytes4 v.position.2

/-- `bytemuck::cast_slice` on a vertex slice: the concatenated byte
layouts of the elements in order. -/
def castSlice (vs : List TriangleVertex) : List Nat :=
  (vs.map TriangleVertex.bytes).flatten

/-- `TRIANGLE_VERTICES` (main.rs lines 178-188): positions
`[0.0, 0.5]`, `[-0.5, -0.5]`, `[0.5, -0.5]`. -/
def TRIANGLE_VERTICES : List TriangleVertex :=
  [⟨(f32_lit_zero, f32_lit_half)⟩,
   ⟨(f32_lit_neg_half, f32_lit_neg_half)⟩,
   ⟨(f32_lit_half, f32_lit_neg_half)⟩]

/-- A GPU buffer as created by `create_buffer_init`: its descriptor
fields and its uploaded contents. -/
structure Buffer where
  label : Option String
  usage : Nat
  contents : List Nat
  deriving DecidableEq, Repr

/-- `TrianglePipeline::create_vertex_buffer` (main.rs lines 254-260). -/
def TrianglePipeline.create_vertex_buffer (_device : Device) : Buffer :=
  { label := some "Triangle Vertex"
    usage := BufferUsages.VERTEX
    contents := castSlice TRIANGLE_VERTICES }

/-- `wgpu::PrimitiveTopology` (subset). -/
inductive PrimitiveTopology where
  | TriangleList
  | TriangleStrip
  | LineList
  deriving DecidableEq, Repr

/-- `wgpu::FrontFace`. -/
inductive FrontFace where
  | Ccw
  | Cw
  deriving DecidableEq, Repr

/-- `wgpu::Face`. -/
inductive Face where
  | Front
  | Back
  deriving DecidableEq, Repr

/-- The render pipeline object, keeping the descriptor facts set in
`TrianglePipeline::new` (main.rs lines 201-234). -/
structure RenderPipeline where
  label : Option String
  vertex_entry : String
  fragment_entry : String
  target_format : TextureFormat
  topology : PrimitiveTopology
  front_face : FrontFace
  cull_mode : Option Face
  sample_count : Nat
  deriving DecidableEq, Repr

/-- The `TrianglePipeline` struct from main.rs. -/
structure TrianglePipeline where
  pipeline : RenderPipeline
  vertex_buffer : Buffer
  deriving DecidableEq, Repr

/-- `TrianglePipeline::new` (main.rs lines 196-239). -/
def TrianglePipeline.new (device : Device) (format : TextureFormat) :
    TrianglePipeline :=
  { pipeline :=
      { label := some "Pipeline"
        vertex_entry := "vs_main"
        fragment_entry := "fs_main"
        target_format := format
        topology := .TriangleList
        front_face := .Ccw
        cull_mode := some .Back
        sample_count := 1 }
    vertex_buffer := TrianglePipeline.create_vertex_buffer device }

/-- `wgpu::Color` (f64 components; the ones used are exact). -/
structure Color where
  r : ℚ
  g : ℚ
  b : ℚ
  a : ℚ
  deriving DecidableEq, Repr

/-- `wgpu::Color::BLACK`. -/
def Color.BLACK : Color := { r := 0, g := 0, b := 0, a := 1 }

/-- `wgpu::LoadOp` for a color attachment. -/
inductive LoadOp where
  | Clear (color : Color)
  | Load
  deriving DecidableEq, Repr

/-- `wgpu::StoreOp`. -/
inductive StoreOp where
  | Store
  | Discard
  deriving DecidableEq, Repr

/-- The texture behind an acquired surface frame (the field read is its
format). -/
structure Texture where
  format : TextureFormat
  deriving DecidableEq, Repr

/-- `wgpu::SurfaceTexture` as returned by `get_current_texture`. -/
structure SurfaceTexture where
  texture : Texture
  deriving DecidableEq, Repr

/-- The observable graphics commands issued during `State::render`, in
program order. -/
inductive RenderEvent where
  | createCommandEncoder (label : Option String)
  | getCurrentTexture
  | createView
  | createPipeline (format : TextureFormat)
  | beginRenderPass (label : Option String) (load : LoadOp) (store : StoreOp)
  | setPipeline
  | setVertexBuffer (slot : Nat)
  | draw (vertices : Nat × Nat) (instances : Nat × Nat)
  | drawIndexed (indices : Nat × Nat) (instances : Nat × Nat)
  | endRenderPass
  | submit
  | present
  deriving DecidableEq, Repr

/-- `TrianglePipeline::draw` (main.rs lines 241-245): the commands it
records into the render pass, in order.  The draw covers
`0..TRIANGLE_VERTICES.len()` vertices and `0..1` instances. -/
def TrianglePipeline.draw (_p : TrianglePipeline) : List RenderEvent :=
  [.setPipeline,
   .setVertexBuffer 0,
   .draw (0, TRIANGLE_VERTICES.length) (0, 1)]

/-- Outcome of one `State::render` call: the trace of commands issued,
either to completion or up to the panic of an `unwrap`. -/
inductive RenderResult where
  | ok (pipeline : TrianglePipeline) (events : List RenderEvent)
  | panicked (events : List RenderEvent)
  deriving DecidableEq, Repr

/-- The command trace of a render outcome. -/
def RenderResult.events : RenderResult → List RenderEvent
  | .ok _ es => es
  | .panicked es => es

/-- `State::render` (main.rs lines 112-147), with the outcome of
`surface.get_current_texture()` as a parameter (`none` embeds `Err`,
on which the source `unwrap`s).  In source order: the command encoder
is created first (lines 113-117), then the surface texture is acquired
(line 119), the view created, the pipeline built, the render pass begun
with a clear-to-black load and store, the pipeline's draw recorded, the
pass ended, the commands submitted and the frame presented. -/
def State.render (s : State) (acquired : Option SurfaceTexture) :
    RenderResult :=
  match acquired with
  | none =>
    .panicked [.createCommandEncoder (some "Command Encoder"),
               .getCurrentTexture]
  | some output =>
    let pipeline := TrianglePipeline.new s.device output.texture.format
    .ok pipeline
      ([.createCommandEncoder (some "Command Encoder"),
        .getCurrentTexture,
        .createView,
        .createPipeline output.texture.format,
        .beginRenderPass (some "Render Pass") (.Clear Color.BLACK) .Store]
       ++ pipeline.draw
       ++ [.endRenderPass, .submit, .present])

/-- Recognizes a surface-texture acquisition in a trace. -/
def isAcquireEvent : RenderEvent → Bool
  | .getCurrentTexture => true
  | _ => false

/-- Recognizes the opening of a command encoder in a trace. -/
def isEncoderOpenEvent : RenderEvent → Bool
  | .createCommandEncoder _ => true
  | _ => false

/-- Recognizes a non-indexed draw command in a trace. -/
def isDrawEvent : RenderEvent → Bool
  | .draw _ _ => true
  | _ => false

/-- Recognizes an indexed draw command in a trace. -/
def isDrawIndexedEvent : RenderEvent → Bool
  | .drawIndexed _ _ => true
  | _ => false

/-- Recognizes a queue submission or a frame presentation in a trace. -/
def isSubmitOrPresentEvent : RenderEvent → Bool
  | .submit => true
  | .present => true
  | _ => false

/-! Concrete fixtures used by the witness theorems. -/

/-- A sample surface configuration, as `State::new` builds for an 800x600
window with a `Bgra8UnormSrgb`-capable surface. -/
def testConfig : SurfaceConfiguration :=
  { usage := TextureUsages.RENDER_ATTACHMENT
    format := .Bgra8UnormSrgb
    width := 800
    height := 600
    present_mode := .Fifo
    alpha_mode := .Auto
    view_formats := [] }

/-- A sample application state. -/
def testState : State :=
  { surface := ⟨1⟩, config := testConfig, device := ⟨2⟩, queue := ⟨3⟩ }

/-- A sample acquired surface texture. -/
def testTexture : SurfaceTexture := ⟨⟨.Bgra8UnormSrgb⟩⟩

/-- A window whose reported inner size has a zero width (e.g. minimized
or not yet laid out at startup). -/
def zeroWindow : Window := ⟨⟨0, 600⟩⟩

/-- First-match characterization of `List.find?`: a found element is the
first one satisfying the predicate, in iteration order. -/
theorem find?_first {α : Type} (p : α → Bool) (l : List α) (a : α)
    (h : l.find? p = some a) :
    ∃ i, ∃ hi : i < l.length, l.get ⟨i, hi⟩ = a ∧ p a = true ∧
      ∀ j (hj : j < l.length), j < i → p (l.get ⟨j, hj⟩) = false := by
  induction l with
  | nil => simp [List.find?] at h
  | cons x xs ih =>
    by_cases hp : p x = true
    · rw [List.find?_cons_of_pos _ hp] at h
      obtain rfl : x = a := by injection h
      exact ⟨0, by simp, rfl, hp, fun j hj hj0 => absurd hj0 (by omega)⟩
    · rw [List.find?_cons_of_neg _ hp] at h
      obtain ⟨i, hi, hget, hpa, hfirst⟩ := ih h
      refine ⟨i + 1, by simpa using hi, hget, hpa, ?_⟩
      intro j hj hji
      match j with
      | 0 => simpa using hp
      | j + 1 => exact hfirst j (by simpa using hj) (by omega)

/-- C2: for every resize event with width > 0 and height > 0, after
`State::resize(size)` returns, the stored configuration's width equals
`size.width` and its height equals `size.height`, and
`surface.configure` is invoked exactly once during that call. -/
theorem resize_positive_updates_and_configures_once
    (s : State) (size : PhysicalSize)
    (h : 0 < size.width ∧ 0 < size.height) :
    (s.resize size).1.config.width = size.width ∧
    (s.resize size).1.config.height = size.height ∧
    (s.resize size).2.length = 1 := by
  simp [State.resize, if_pos h]

/-- Witness for C2 at `testState` resized to 1024x768. -/
theorem resize_positive_updates_and_configures_once_witness :
    (0 < (1024 : Nat) ∧ 0 < (768 : Nat)) ∧
    ((testState.resize ⟨1024, 768⟩).1.config.width = 1024 ∧
     (testState.resize ⟨1024, 768⟩).1.config.height = 768 ∧
     (testState.resize ⟨1024, 768⟩).2.length = 1) :=
  ⟨by decide,
   resize_positive_updates_and_configures_once testState ⟨1024, 768⟩
     (by decide)⟩

/-- C3: for every resize event with width == 0 or height == 0,
`State::resize` leaves the state (in particular the stored
configuration) entirely unchanged and performs no `surface.configure`
call: a silent no-op, not an error. -/
theorem resize_zero_is_silent_noop (s : State) (size : PhysicalSize)
    (h : size.width = 0 ∨ size.height = 0) :
    s.resize size = (s, []) := by
  rcases h with h | h <;> simp [State.resize, h]

/-- Witness for C3 at `testState` resized to (0, 400). -/
theorem resize_zero_is_silent_noop_witness :
    ((0 : Nat) = 0 ∨ (400 : Nat) = 0) ∧
    testState.resize ⟨0, 400⟩ = (testState, []) :=
  ⟨Or.inl rfl, resize_zero_is_silent_noop testState ⟨0, 400⟩ (Or.inl rfl)⟩

/-- C10: for every resize event with width > 0 and height > 0,
`State::resize` modifies only the configuration's width and height:
the configuration's usage, format, present_mode, alpha_mode and
view_formats, and the state's surface, device and queue handles are
all unchanged by the call. -/
theorem resize_positive_modifies_only_dimensions
    (s : State) (size : PhysicalSize)
    (h : 0 < size.width ∧ 0 < size.height) :
    (s.resize size).1.config.usage = s.config.usage ∧
    (s.resize size).1.config.format = s.config.format ∧
    (s.resize size).1.config.present_mode = s.config.present_mode ∧
    (s.resize size).1.config.alpha_mode = s.config.alpha_mode ∧
    (s.resize size).1.config.view_formats = s.config.view_formats ∧
    (s.resize size).1.surface = s.surface ∧
    (s.resize size).1.device = s.device ∧
    (s.resize size).1.queue = s.queue := by
  simp [State.resize, if_pos h]

/-- Witness for C10 at `testState` resized to 1024x768. -/
theorem resize_positive_modifies_only_dimensions_witness :
    (0 < (1024 : Nat) ∧ 0 < (768 : Nat)) ∧
    ((testState.resize ⟨1024, 768⟩).1.config.usage = testState.config.usage ∧
     (testState.resize ⟨1024, 768⟩).1.config.format = testState.config.format ∧
     (testState.resize ⟨1024, 768⟩).1.config.present_mode
        = testState.config.present_mode ∧
     (testState.resize ⟨1024, 768⟩).1.config.alpha_mode
        = testState.config.alpha_mode ∧
     (testState.resize ⟨1024, 768⟩).1.config.view_formats
        = testState.config.view_formats ∧
     (testState.resize ⟨1024, 768⟩).1.surface = testState.surface ∧
     (testState.resize ⟨1024, 768⟩).1.device = testState.device ∧
     (testState.resize ⟨1024, 768⟩).1.queue = testState.queue) :=
  ⟨by decide,
   resize_positive_modifies_only_dimensions testState ⟨1024, 768⟩
     (by decide)⟩

/-- C4: for every nonempty surface-capabilities format list, if the list
contains an sRGB format then the selected surface format is the first
sRGB entry in iteration order; if it contains none, the selected format
is the list's first entry.  (On an empty list the source panics when
indexing `formats[0]`.) -/
theorem surface_format_selection (formats : List TextureFormat)
    (h : formats ≠ []) :
    ((∃ f ∈ formats, f.is_srgb = true) →
      ∃ i, ∃ hi : i < formats.length,
        surfaceFormatOf formats = some (formats.get ⟨i, hi⟩) ∧
        (formats.get ⟨i, hi⟩).is_srgb = true ∧
        ∀ j (hj : j < formats.length), j < i →
          (formats.get ⟨j, hj⟩).is_srgb = false) ∧
    ((∀ f ∈ formats, f.is_srgb = false) →
      surfaceFormatOf formats = formats.head?) := by
  match formats with
  | [] => exact absurd rfl h
  | f0 :: rest =>
    constructor
    · intro hex
      cases hfind : (f0 :: rest).find? TextureFormat.is_srgb with
      | none =>
        obtain ⟨f, hf, hsrgb⟩ := hex
        have := List.find?_eq_none.mp hfind f hf
        simp [hsrgb] at this
      | some g =>
        obtain ⟨i, hi, hget, hpg, hfirst⟩ :=
          find?_first TextureFormat.is_srgb (f0 :: rest) g hfind
        refine ⟨i, hi, ?_, hget ▸ hpg, hfirst⟩
        simp [surfaceFormatOf, hfind, hget.symm]
    · intro hall
      have hfind : (f0 :: rest).find? TextureFormat.is_srgb = none :=
        List.find?_eq_none.mpr (fun f hf => by simp [hall f hf])
      simp [surfaceFormatOf, hfind]

/-- Witness for C4 on the list `[Bgra8Unorm, Rgba8UnormSrgb]`. -/
theorem surface_format_selection_witness :
    ([TextureFormat.Bgra8Unorm, TextureFormat.Rgba8UnormSrgb]
        ≠ ([] : List TextureFormat)) ∧
    (((∃ f ∈ [TextureFormat.Bgra8Unorm, TextureFormat.Rgba8UnormSrgb],
          f.is_srgb = true) →
      ∃ i, ∃ hi : i < [TextureFormat.Bgra8Unorm,
                       TextureFormat.Rgba8UnormSrgb].length,
        surfaceFormatOf [TextureFormat.Bgra8Unorm,
                         TextureFormat.Rgba8UnormSrgb]
          = some ([TextureFormat.Bgra8Unorm,
                   TextureFormat.Rgba8UnormSrgb].get ⟨i, hi⟩) ∧
        ([TextureFormat.Bgra8Unorm,
          TextureFormat.Rgba8UnormSrgb].get ⟨i, hi⟩).is_srgb = true ∧
        ∀ j (hj : j < [TextureFormat.Bgra8Unorm,
                       TextureFormat.Rgba8UnormSrgb].length), j < i →
          ([TextureFormat.Bgra8Unorm,
            TextureFormat.Rgba8UnormSrgb].get ⟨j, hj⟩).is_srgb = false) ∧
     ((∀ f ∈ [TextureFormat.Bgra8Unorm, TextureFormat.Rgba8UnormSrgb],
          f.is_srgb = false) →
      surfaceFormatOf [TextureFormat.Bgra8Unorm,
                       TextureFormat.Rgba8UnormSrgb]
        = [TextureFormat.Bgra8Unorm,
           TextureFormat.Rgba8UnormSrgb].head?)) :=
  ⟨by decide,
   surface_format_selection
     [TextureFormat.Bgra8Unorm, TextureFormat.Rgba8UnormSrgb] (by decide)⟩

/-- C8: after `State::new` returns, the stored surface configuration has
render-attachment usage, the chosen surface format, width and height
equal to the window's current pixel size, FIFO presentation mode and
automatic alpha compositing (and an empty view-format list). -/
theorem new_builds_expected_config (window : Window) (surface : Surface)
    (device : Device) (queue : Queue) (caps : SurfaceCapabilities)
    (h : caps.formats ≠ []) :
    ∃ st calls,
      State.new window surface device queue caps = some (st, calls) ∧
      st.config.usage = TextureUsages.RENDER_ATTACHMENT ∧
      some st.config.format = surfaceFormatOf caps.formats ∧
      st.config.width = window.inner_size.width ∧
      st.config.height = window.inner_size.height ∧
      st.config.present_mode = PresentMode.Fifo ∧
      st.config.alpha_mode = CompositeAlphaMode.Auto ∧
      st.config.view_formats = [] := by
  obtain ⟨fmt, hf⟩ : ∃ fmt, surfaceFormatOf caps.formats = some fmt := by
    match hc : caps.formats, h with
    | f0 :: rest, _ => exact ⟨_, rfl⟩
  refine ⟨{ surface := surface
            config := { usage := TextureUsages.RENDER_ATTACHMENT
                        format := fmt
                        width := window.inner_size.width
                        height := window.inner_size.height
                        present_mode := .Fifo
                        alpha_mode := .Auto
                        view_formats := [] }
            device := device
            queue := queue },
         [{ device := device
            config := { usage := TextureUsages.RENDER_ATTACHMENT
                        format := fmt
                        width := window.inner_size.width
                        height := window.inner_size.height
                        present_mode := .Fifo
                        alpha_mode := .Auto
                        view_formats := [] } }],
         ?_, rfl, ?_, rfl, rfl, rfl, rfl, rfl⟩
  · simp [State.new, hf]
  · exact hf.symm

/-- Witness for C8: an 800x600 window with a `Bgra8UnormSrgb` surface
yields width 800, height 600 and FIFO presentation. -/
theorem new_builds_expected_config_witness :
    (([TextureFormat.Bgra8UnormSrgb] : List TextureFormat) ≠ []) ∧
    (∃ st calls,
      State.new ⟨⟨800, 600⟩⟩ ⟨1⟩ ⟨2⟩ ⟨3⟩ ⟨[.Bgra8UnormSrgb]⟩
        = some (st, calls) ∧
      st.config.usage = TextureUsages.RENDER_ATTACHMENT ∧
      some st.config.format = surfaceFormatOf [.Bgra8UnormSrgb] ∧
      st.config.width = 800 ∧
      st.config.height = 600 ∧
      st.config.present_mode = PresentMode.Fifo ∧
      st.config.alpha_mode = CompositeAlphaMode.Auto ∧
      st.config.view_formats = []) :=
  ⟨by decide,
   new_builds_expected_config ⟨⟨800, 600⟩⟩ ⟨1⟩ ⟨2⟩ ⟨3⟩ ⟨[.Bgra8UnormSrgb]⟩
     (by decide)⟩

/-- C1 counterexample: the claim as stated is false.  `State::new`
applies the window's inner size to the surface with no positivity
check: from a window whose inner size is 0x600, the reachable initial
state has already applied a configuration with width 0 via
`surface.configure`. -/
theorem initial_configure_zero_width_counterexample :
    ∃ st calls, Reachable zeroWindow st calls ∧
      ¬ (∀ c ∈ calls, 0 < c.config.width ∧ 0 < c.config.height) := by
  refine ⟨_, _, .init ⟨1⟩ ⟨2⟩ ⟨3⟩ ⟨[.Bgra8UnormSrgb]⟩ _ _ rfl, ?_⟩
  intro hall
  have := hall { device := ⟨2⟩,
                 config := { usage := TextureUsages.RENDER_ATTACHMENT
                             format := .Bgra8UnormSrgb
                             width := 0
                             height := 600
                             present_mode := .Fifo
                             alpha_mode := .Auto
                             view_formats := [] } } (by decide)
  exact absurd this.1 (by decide)

/-- C1 (amended): provided the window's initial inner size is positive
in both dimensions, every configuration applied to the surface via
`surface.configure` in any reachable state — the one applied at
initialization and the one applied on every accepted resize — has
width > 0 and height > 0. -/
theorem reachable_configure_positive (w : Window)
    (hw : 0 < w.inner_size.width ∧ 0 < w.inner_size.height)
    (st : State) (calls : List ConfigureCall)
    (hr : Reachable w st calls) :
    ∀ c ∈ calls, 0 < c.config.width ∧ 0 < c.config.height := by
  induction hr with
  | init surface device queue caps st calls h =>
    intro c hc
    cases hf : surfaceFormatOf caps.formats with
    | none => simp [State.new, hf] at h
    | some fmt =>
      simp only [State.new, hf, Option.some.injEq, Prod.mk.injEq] at h
      obtain ⟨-, hcalls⟩ := h
      rw [← hcalls] at hc
      simp only [List.mem_singleton] at hc
      subst hc
      simpa using hw
  | step st calls size st' newCalls hr h ih =>
    intro c hc
    rcases List.mem_append.mp hc with hold | hnew
    · exact ih c hold
    · unfold State.resize at h
      by_cases hpos : 0 < size.width ∧ 0 < size.height
      · rw [if_pos hpos] at h
        simp only [Prod.mk.injEq] at h
        obtain ⟨-, hcalls⟩ := h
        rw [← hcalls] at hnew
        simp only [List.mem_singleton] at hnew
        subst hnew
        simpa using hpos
      · rw [if_neg hpos] at h
        simp only [Prod.mk.injEq] at h
        obtain ⟨-, hcalls⟩ := h
        rw [← hcalls] at hnew
        simp at hnew

/-- Witness for the amended C1: the initial state of an 800x600 window
with an sRGB-capable surface only ever applies positive dimensions. -/
theorem reachable_configure_positive_witness :
    (0 < (800 : Nat) ∧ 0 < (600 : Nat)) ∧
    ∀ c ∈ [({ device := ⟨2⟩, config := testConfig } : ConfigureCall)],
      0 < c.config.width ∧ 0 < c.config.height :=
  ⟨by decide,
   reachable_configure_positive ⟨⟨800, 600⟩⟩ ⟨by decide, by decide⟩ testState
     [{ device := ⟨2⟩, config := testConfig }]
     (.init ⟨1⟩ ⟨2⟩ ⟨3⟩ ⟨[.Bgra8UnormSrgb]⟩ testState
       [{ device := ⟨2⟩, config := testConfig }] rfl)⟩

/-- Unfolding equation for a successful render: the exact ordered
command trace that `State::render` issues. -/
theorem render_some_unfold (s : State) (output : SurfaceTexture) :
    s.render (some output) =
      .ok (TrianglePipeline.new s.device output.texture.format)
        [.createCommandEncoder (some "Command Encoder"),
         .getCurrentTexture,
         .createView,
         .createPipeline output.texture.format,
         .beginRenderPass (some "Render Pass") (.Clear Color.BLACK) .Store,
         .setPipeline,
         .setVertexBuffer 0,
         .draw (0, 3) (0, 1),
         .endRenderPass,
         .submit,
         .present] := rfl

/-- C5 (amended): every successful call to `State::render` performs, in
order: open a command encoder, acquire the next presentable surface
texture, create a texture view, build the triangle pipeline, begin a
render pass that clears the color attachment to black and stores the
result, delegate drawing to the pipeline, submit the encoded commands
to the queue, and present the acquired texture.  (The source opens the
command encoder before acquiring the texture, not after.) -/
theorem render_command_order (s : State) (output : SurfaceTexture) :
    s.render (some output) =
      .ok (TrianglePipeline.new s.device output.texture.format)
        [.createCommandEncoder (some "Command Encoder"),
         .getCurrentTexture,
         .createView,
         .createPipeline output.texture.format,
         .beginRenderPass (some "Render Pass") (.Clear Color.BLACK) .Store,
         .setPipeline,
         .setVertexBuffer 0,
         .draw (0, 3) (0, 1),
         .endRenderPass,
         .submit,
         .present] :=
  render_some_unfold s output

/-- C5 counterexample: the claim's stated order (acquire the surface
texture before opening the command encoder) is false: in the actual
trace the unique encoder-open event precedes the unique acquisition
event. -/
theorem render_acquire_before_encoder_counterexample :
    (State.render testState (some testTexture)).events.countP
        isEncoderOpenEvent = 1 ∧
    (State.render testState (some testTexture)).events.countP
        isAcquireEvent = 1 ∧
    (State.render testState (some testTexture)).events.findIdx
        isEncoderOpenEvent
      < (State.render testState (some testTexture)).events.findIdx
        isAcquireEvent := by
  decide

/-- C6: the vertex buffer uploaded by any render's pipeline always holds
the byte encoding (repr(C), little-endian IEEE-754 binary32) of exactly
3 vertices whose positions decode to (0, 0.5), (-0.5, -0.5),
(0.5, -0.5), in that order — independent of the state rendered from,
hence of how many frames have rendered. -/
theorem vertex_buffer_constant_triangle (s : State)
    (output : SurfaceTexture) (p : TrianglePipeline)
    (events : List RenderEvent)
    (h : s.render (some output) = .ok p events) :
    p.vertex_buffer.contents = castSlice TRIANGLE_VERTICES ∧
    castSlice TRIANGLE_VERTICES =
      [0x00, 0x00, 0x00, 0x00, 0x00, 0x00, 0x00, 0x3F,
       0x00, 0x00, 0x00, 0xBF, 0x00, 0x00, 0x00, 0xBF,
       0x00, 0x00, 0x00, 0x3F, 0x00, 0x00, 0x00, 0xBF] ∧
    TRIANGLE_VERTICES.length = 3 ∧
    TRIANGLE_VERTICES.map
        (fun v => (f32Val? v.position.1, f32Val? v.position.2))
      = [(some 0, some (1 / 2)),
         (some (-(1 / 2)), some (-(1 / 2))),
         (some (1 / 2), some (-(1 / 2)))] := by
  rw [render_some_unfold] at h
  injection h with hp hev
  refine ⟨?_, by decide, by decide, ?_⟩
  · rw [← hp]; rfl
  · norm_num [TRIANGLE_VERTICES, f32Val?, f32_lit_zero, f32_lit_half,
      f32_lit_neg_half]

/-- Witness for C6 at `testState` with an acquired `testTexture`. -/
theorem vertex_buffer_constant_triangle_witness :
    State.render testState (some testTexture) =
      .ok (TrianglePipeline.new testState.device testTexture.texture.format)
        [.createCommandEncoder (some "Command Encoder"),
         .getCurrentTexture,
         .createView,
         .createPipeline testTexture.texture.format,
         .beginRenderPass (some "Render Pass") (.Clear Color.BLACK) .Store,
         .setPipeline,
         .setVertexBuffer 0,
         .draw (0, 3) (0, 1),
         .endRenderPass,
         .submit,
         .present] ∧
    ((TrianglePipeline.new testState.device
        testTexture.texture.format).vertex_buffer.contents
      = castSlice TRIANGLE_VERTICES ∧
     castSlice TRIANGLE_VERTICES =
      [0x00, 0x00, 0x00, 0x00, 0x00, 0x00, 0x00, 0x3F,
       0x00, 0x00, 0x00, 0xBF, 0x00, 0x00, 0x00, 0xBF,
       0x00, 0x00, 0x00, 0x3F, 0x00, 0x00, 0x00, 0xBF] ∧
     TRIANGLE_VERTICES.length = 3 ∧
     TRIANGLE_VERTICES.map
        (fun v => (f32Val? v.position.1, f32Val? v.position.2))
      = [(some 0, some (1 / 2)),
         (some (-(1 / 2)), some (-(1 / 2))),
         (some (1 / 2), some (-(1 / 2)))]) :=
  ⟨rfl, vertex_buffer_constant_triangle testState testTexture _ _ rfl⟩

/-- C7: every successful call to `State::render` issues exactly one
non-indexed draw command, covering exactly vertex range [0,3) and
instance range [0,1), and no indexed draw at all. -/
theorem render_issues_single_draw (s : State) (output : SurfaceTexture)
    (p : TrianglePipeline) (events : List RenderEvent)
    (h : s.render (some output) = .ok p events) :
    events.filter isDrawEvent = [.draw (0, 3) (0, 1)] ∧
    events.countP isDrawIndexedEvent = 0 := by
  rw [render_some_unfold] at h
  injection h with hp hev
  rw [← hev]
  constructor <;> rfl

/-- Witness for C7 at `testState` with an acquired `testTexture`. -/
theorem render_issues_single_draw_witness :
    State.render testState (some testTexture) =
      .ok (TrianglePipeline.new testState.device testTexture.texture.format)
        [.createCommandEncoder (some "Command Encoder"),
         .getCurrentTexture,
         .createView,
         .createPipeline testTexture.texture.format,
         .beginRenderPass (some "Render Pass") (.Clear Color.BLACK) .Store,
         .setPipeline,
         .setVertexBuffer 0,
         .draw (0, 3) (0, 1),
         .endRenderPass,
         .submit,
         .present] ∧
    (([RenderEvent.createCommandEncoder (some "Command Encoder"),
       .getCurrentTexture,
       .createView,
       .createPipeline testTexture.texture.format,
       .beginRenderPass (some "Render Pass") (.Clear Color.BLACK) .Store,
       .setPipeline,
       .setVertexBuffer 0,
       .draw (0, 3) (0, 1),
       .endRenderPass,
       .submit,
       .present].filter isDrawEvent = [.draw (0, 3) (0, 1)]) ∧
     ([RenderEvent.createCommandEncoder (some "Command Encoder"),
       .getCurrentTexture,
       .createView,
       .createPipeline testTexture.texture.format,
       .beginRenderPass (some "Render Pass") (.Clear Color.BLACK) .Store,
       .setPipeline,
       .setVertexBuffer 0,
       .draw (0, 3) (0, 1),
       .endRenderPass,
       .submit,
       .present].countP isDrawIndexedEvent = 0)) :=
  ⟨rfl, render_issues_single_draw testState testTexture _ _ rfl⟩

/-- C9: if acquisition of the next surface texture fails during
`State::render`, the call panics (frame-fatal abort): exactly one
acquisition is attempted, the trace ends at that attempt, and nothing
is submitted or presented — no retry, recovery or backoff of any
kind occurs. -/
theorem render_acquisition_failure_aborts (s : State) :
    s.render none =
      .panicked [.createCommandEncoder (some "Command Encoder"),
                 .getCurrentTexture] ∧
    (s.render none).events.countP isAcquireEvent = 1 ∧
    (s.render none).events.getLast? = some .getCurrentTexture ∧
    (s.render none).events.countP isSubmitOrPresentEvent = 0 :=
  ⟨rfl, rfl, rfl, rfl⟩

end Renderer
